import Mathlib

/-
Verification development for the server-access-dashboard repository.

The repository ships a Vue frontend (frontend/src/main.js) together with the
Docker packaging of a FastAPI backend.  The frontend logic (API client
construction, configuration resolution, the collect-and-poll loop, filter and
pagination state, timestamp rendering) is embedded directly from
frontend/src/main.js.  The backend pipeline (Store, Orchestrator, Geo
Resolver, auth check) is not part of the shipped sources; those pieces are
modelled from the written specification and are marked as such in their doc
comments.
-/

namespace SAD

/-! ## String utilities (JavaScript String.prototype.includes) -/

/-- Boolean test that `pat` occurs as a contiguous run inside the character
list: the semantics of the JavaScript `includes` used by the client. -/
def hasSubAux (pat : List Char) : List Char → Bool
  | [] => pat.isEmpty
  | c :: t => pat.isPrefixOf (c :: t) || hasSubAux pat t

/-- JavaScript `s.includes(pat)` on strings. -/
def strHasSub (s pat : String) : Bool :=
  hasSubAux pat.toList s.toList

/-! ## CollectionJob state (spec section 3, section 4.5) -/

/-- Modelled from the spec: the CollectionJob status enumeration
status is one of idle, running, finished, error (spec section 3). -/
inductive JobStatus where
  | idle
  | running
  | finished
  | error
deriving DecidableEq, Repr

/-- Modelled from the spec: the singleton CollectionJob run-state record
(spec section 3): status, start time, end time, error message and the
four counters. -/
structure Job where
  status : JobStatus
  startTime : Option Nat
  endTime : Option Nat
  errorMessage : Option String
  filesScanned : Nat
  linesParsed : Nat
  linesMalformed : Nat
  entriesAdded : Nat
deriving DecidableEq, Repr

/-- Modelled from the spec: the CollectionJob is created at process start in
idle with empty times and zero counts. -/
def initialJob : Job :=
  { status := JobStatus.idle
    startTime := none
    endTime := none
    errorMessage := none
    filesScanned := 0
    linesParsed := 0
    linesMalformed := 0
    entriesAdded := 0 }

/-- HTTP status and message returned by the start endpoint. -/
structure StartResponse where
  httpStatus : Nat
  message : String
deriving DecidableEq, Repr

/-- Modelled from the spec: the Orchestrator start path (spec sections 4.5
and 6).  A start request is accepted only if the current state is not
running; acceptance answers 202 with a started message, resets the counts
and records the start time.  A start request while running is rejected with
the conflict response and has no side effect on the job. -/
def startRun (j : Job) (now : Nat) : StartResponse × Job :=
  if j.status = JobStatus.running then
    (⟨409, "Log collection already running"⟩, j)
  else
    (⟨202, "Log collection started"⟩,
     { status := JobStatus.running
       startTime := some now
       endTime := none
       errorMessage := none
       filesScanned := 0
       linesParsed := 0
       linesMalformed := 0
       entriesAdded := 0 })

/-! ## Client reaction to the start request (frontend/src/main.js,
collectAndRefreshLogs).  The axios promise resolves for 2xx statuses and
rejects otherwise; the response body message and detail fields are modelled
as one message string. -/

/-- Outcome of the client code handling the POST collect response: whether
polling begins and which error text, if any, is surfaced. -/
structure ClientReact where
  startsPolling : Bool
  errorText : Option String
deriving DecidableEq, Repr

/-- Embeds collectAndRefreshLogs (main.js lines 282 to 347): polling starts
exactly when the response status is 202 and the message contains started;
a resolved non-202 response surfaces a generic start error embedding the
message; a 202 message containing already running surfaces the conflict
text; a rejected 401 or 403 surfaces the auth error; a rejected 409
surfaces the server-reported conflict text; any other rejection surfaces a
generic API error. -/
def clientStartReaction (status : Nat) (msg : String) : ClientReact :=
  if 200 ≤ status ∧ status < 300 then
    if status = 202 ∧ strHasSub msg "started" then
      ⟨true, none⟩
    else if status ≠ 202 then
      ⟨false, some ("Error starting collection: " ++ toString status ++ " - " ++ msg)⟩
    else if strHasSub msg "already running" then
      ⟨false, some "Log collection is already running."⟩
    else
      ⟨false, none⟩
  else
    if status = 401 ∨ status = 403 then
      ⟨false, some ("API Auth Error (Collect): " ++ toString status ++ " - " ++ msg)⟩
    else if status = 409 then
      ⟨false, some "Log collection is already running (reported by server)."⟩
    else
      ⟨false, some ("API Error (Collect): " ++ toString status ++ ".")⟩

/-- C1: a start request on a non-running job is accepted with 202 and a
message containing started, and moves the job to running; a start request
while running is rejected with 409 and an already running message and
leaves the job unchanged, so two back-to-back start requests cause exactly
one transition.  The client begins polling exactly on a 202 response whose
message contains started; a 409 rejection and a 202 already running
message are both surfaced as the conflict outcome without polling, and a
200 already running response also does not poll and surfaces an error
mentioning already running. -/
theorem c1_single_flight_start :
    (∀ (j : Job) (now : Nat), j.status ≠ JobStatus.running →
      (startRun j now).1.httpStatus = 202 ∧
      strHasSub (startRun j now).1.message "started" = true ∧
      (startRun j now).2.status = JobStatus.running) ∧
    (∀ (j : Job) (now : Nat), j.status = JobStatus.running →
      (startRun j now).1.httpStatus = 409 ∧
      strHasSub (startRun j now).1.message "already running" = true ∧
      (startRun j now).2 = j) ∧
    (∀ (j : Job) (t t2 : Nat), j.status ≠ JobStatus.running →
      (startRun (startRun j t).2 t2).2 = (startRun j t).2 ∧
      (startRun (startRun j t).2 t2).1.httpStatus = 409) ∧
    ((clientStartReaction 202 "Log collection started").startsPolling = true) ∧
    (∀ (s : Nat) (m : String), (clientStartReaction s m).startsPolling = true →
      s = 202 ∧ strHasSub m "started" = true) ∧
    (∀ m : String, (clientStartReaction 409 m).startsPolling = false ∧
      (clientStartReaction 409 m).errorText =
        some "Log collection is already running (reported by server).") ∧
    ((clientStartReaction 202 "Log collection already running").startsPolling = false ∧
      (clientStartReaction 202 "Log collection already running").errorText =
        some "Log collection is already running.") ∧
    ((clientStartReaction 200 "Log collection already running").startsPolling = false ∧
      strHasSub
        (((clientStartReaction 200 "Log collection already running").errorText).getD "")
        "already running" = true) := by
  refine ⟨?_, ?_, ?_, ?_, ?_, ?_, ?_, ?_⟩
  · intro j now h
    simp only [startRun, if_neg h]
    decide
  · intro j now h
    unfold startRun
    rw [if_pos h]
    refine ⟨rfl, ?_, rfl⟩
    show strHasSub "Log collection already running" "already running" = true
    decide
  · intro j t t2 h
    have h2 : (startRun j t).2.status = JobStatus.running := by
      unfold startRun
      rw [if_neg h]
    revert h2
    generalize (startRun j t).2 = X
    intro h2
    unfold startRun
    rw [if_pos h2]
    exact ⟨rfl, rfl⟩
  · decide
  · intro s m h
    by_cases h2 : s = 202 ∧ strHasSub m "started" = true
    · exact h2
    · exfalso
      unfold clientStartReaction at h
      by_cases h1 : 200 ≤ s ∧ s < 300
      · rw [if_pos h1, if_neg h2] at h
        by_cases h3 : s ≠ 202
        · rw [if_pos h3] at h
          simp at h
        · rw [if_neg h3] at h
          by_cases h4 : strHasSub m "already running" = true
          · rw [if_pos h4] at h
            simp at h
          · rw [if_neg h4] at h
            simp at h
      · rw [if_neg h1] at h
        by_cases h5 : s = 401 ∨ s = 403
        · rw [if_pos h5] at h
          simp at h
        · rw [if_neg h5] at h
          by_cases h6 : s = 409
          · rw [if_pos h6] at h
            simp at h
          · rw [if_neg h6] at h
            simp at h
  · intro m
    constructor
    · simp [clientStartReaction]
    · simp [clientStartReaction]
  · constructor
    · decide
    · decide
  · constructor
    · decide
    · decide

/-- C1 witness: the theorem applied at the initial job, times 0 and 1, and
the concrete responses of the interface contract. -/
theorem c1_single_flight_start_witness :
    (initialJob.status ≠ JobStatus.running) ∧
    (startRun initialJob 0).1.httpStatus = 202 ∧
    (startRun initialJob 0).2.status = JobStatus.running ∧
    ((startRun initialJob 0).2.status = JobStatus.running →
      (startRun (startRun initialJob 0).2 1).2 = (startRun initialJob 0).2) ∧
    (startRun (startRun initialJob 0).2 1).1.httpStatus = 409 ∧
    ((clientStartReaction 202 "Log collection started").startsPolling = true →
      (202 = 202 ∧ strHasSub "Log collection started" "started" = true)) ∧
    (clientStartReaction 409 "conflict").startsPolling = false := by
  refine ⟨by decide, ?_, ?_, ?_, ?_, ?_, ?_⟩
  · exact (c1_single_flight_start.1 initialJob 0 (by decide)).1
  · exact (c1_single_flight_start.1 initialJob 0 (by decide)).2.2
  · intro h
    exact (c1_single_flight_start.2.1 (startRun initialJob 0).2 1 h).2.2
  · exact (c1_single_flight_start.2.2.1 initialJob 0 1 (by decide)).2
  · intro h
    exact c1_single_flight_start.2.2.2.2.1 202 "Log collection started" h
  · exact (c1_single_flight_start.2.2.2.2.2.1 "conflict").1

/-! ## Store and deduplicated append (spec sections 4.4, 8) -/

/-- Modelled from the spec: one parsed LogEntry carrying its source identity
(originating file and position) used for deduplication (spec section 3). -/
structure LogRecord where
  fileId : String
  pos : Nat
  line : String
deriving DecidableEq, Repr

/-- Modelled from the spec: the deduplication key is the tuple
(source file identity, position within file) (spec section 4.4). -/
def dedupKey (r : LogRecord) : String × Nat :=
  (r.fileId, r.pos)

/-- Whether some stored record already carries the key. -/
def hasKey (s : List LogRecord) (k : String × Nat) : Bool :=
  s.any (fun e => decide (dedupKey e = k))

/-- Modelled from the spec: the Store append of a single record; a record
whose key is already present is ignored rather than erroring. -/
def appendOne (s : List LogRecord) (r : LogRecord) : List LogRecord :=
  if hasKey s (dedupKey r) then s else s ++ [r]

/-- Modelled from the spec: Store.append over a batch, returning the new
contents and the inserted count (spec section 4.4). -/
def appendAll (s : List LogRecord) : List LogRecord → List LogRecord × Nat
  | [] => (s, 0)
  | r :: rs =>
    if hasKey s (dedupKey r) then appendAll s rs
    else
      let out := appendAll (s ++ [r]) rs
      (out.1, out.2 + 1)

/-- Modelled from the spec: a collection run turns each file into records
keyed by the file name and the line position within the file. -/
def recordsOfFiles (files : List (String × List String)) : List LogRecord :=
  (files.map (fun f => f.2.enum.map (fun p => LogRecord.mk f.1 p.1 p.2))).flatten

/-- Modelled from the spec: one collection run over a file set commits all
parsed records through the Store append. -/
def runCollection (store : List LogRecord) (files : List (String × List String)) :
    List LogRecord × Nat :=
  appendAll store (recordsOfFiles files)

lemma hasKey_append_right (s : List LogRecord) (t : List LogRecord) (k : String × Nat)
    (h : hasKey s k = true) : hasKey (s ++ t) k = true := by
  unfold hasKey at h ⊢
  rw [List.any_append, h, Bool.true_or]

lemma hasKey_appendAll_mono (rs : List LogRecord) (s : List LogRecord) (k : String × Nat)
    (h : hasKey s k = true) : hasKey (appendAll s rs).1 k = true := by
  induction rs generalizing s with
  | nil => exact h
  | cons r rs ih =>
    unfold appendAll
    by_cases hk : hasKey s (dedupKey r) = true
    · rw [if_pos hk]
      exact ih s h
    · rw [if_neg hk]
      exact ih (s ++ [r]) (hasKey_append_right s [r] k h)

lemma hasKey_appendAll_mem (rs : List LogRecord) (s : List LogRecord) (r : LogRecord)
    (h : r ∈ rs) : hasKey (appendAll s rs).1 (dedupKey r) = true := by
  induction rs generalizing s with
  | nil => cases h
  | cons a rs ih =>
    unfold appendAll
    rcases List.mem_cons.mp h with heq | hmem
    · subst heq
      by_cases hk : hasKey s (dedupKey r) = true
      · rw [if_pos hk]
        exact hasKey_appendAll_mono rs s (dedupKey r) hk
      · rw [if_neg hk]
        refine hasKey_appendAll_mono rs (s ++ [r]) (dedupKey r) ?_
        unfold hasKey
        rw [List.any_append]
        simp [List.any]
    · by_cases hk : hasKey s (dedupKey a) = true
      · rw [if_pos hk]
        exact ih s hmem
      · rw [if_neg hk]
        exact ih (s ++ [a]) hmem

lemma appendAll_of_all_present (rs : List LogRecord) (s : List LogRecord)
    (h : ∀ r ∈ rs, hasKey s (dedupKey r) = true) : appendAll s rs = (s, 0) := by
  induction rs with
  | nil => rfl
  | cons r rs ih =>
    unfold appendAll
    rw [if_pos (h r (List.mem_cons_self r rs))]
    exact ih (fun x hx => h x (List.mem_cons_of_mem r hx))

/-- C2: the Store append ignores a record whose key is already present
rather than erroring, and running the collection twice over an unchanged
file set is idempotent: the second run inserts nothing and leaves the Store
contents identical, for every starting store and every file contents. -/
theorem c2_collection_idempotent :
    (∀ (s : List LogRecord) (r : LogRecord),
      hasKey s (dedupKey r) = true → appendOne s r = s) ∧
    (∀ (store : List LogRecord) (files : List (String × List String)),
      runCollection (runCollection store files).1 files =
        ((runCollection store files).1, 0)) := by
  constructor
  · intro s r h
    unfold appendOne
    rw [if_pos h]
  · intro store files
    unfold runCollection
    exact appendAll_of_all_present (recordsOfFiles files) _
      (fun r hr => hasKey_appendAll_mem (recordsOfFiles files) store r hr)

/-- C2 witness: a store already holding the key (a.log, 0) absorbs a record
with that key unchanged, and a concrete two-file collection re-run inserts
nothing. -/
theorem c2_collection_idempotent_witness :
    hasKey [LogRecord.mk "a.log" 0 "x"] (dedupKey (LogRecord.mk "a.log" 0 "y")) = true ∧
    appendOne [LogRecord.mk "a.log" 0 "x"] (LogRecord.mk "a.log" 0 "y") =
      [LogRecord.mk "a.log" 0 "x"] ∧
    runCollection
        (runCollection [] [("a.log", ["l1", "l2"]), ("b.log", ["l3"])]).1
        [("a.log", ["l1", "l2"]), ("b.log", ["l3"])] =
      ((runCollection [] [("a.log", ["l1", "l2"]), ("b.log", ["l3"])]).1, 0) := by
  refine ⟨by decide, ?_, ?_⟩
  · exact c2_collection_idempotent.1 [LogRecord.mk "a.log" 0 "x"]
      (LogRecord.mk "a.log" 0 "y") (by decide)
  · exact c2_collection_idempotent.2 [] [("a.log", ["l1", "l2"]), ("b.log", ["l3"])]

/-! ## Orchestrator run completion and the status endpoint
(spec sections 4.5 and 6; frontend/src/main.js checkCollectionStatus) -/

/-- Counters accumulated by one run. -/
structure RunCounts where
  filesScanned : Nat
  linesParsed : Nat
  linesMalformed : Nat
  entriesAdded : Nat
deriving DecidableEq, Repr

/-- Modelled from the spec: run completion (spec section 4.5).  A run that
completes all files with only absorbed per-line or per-file failures moves
to finished even if it recorded malformed lines; only an unrecoverable
failure moves the job to error with a recorded message. -/
def completeRun (j : Job) (endT : Nat) (c : RunCounts) (fatal : Option String) : Job :=
  match fatal with
  | some msg =>
    { j with
      status := JobStatus.error
      endTime := some endT
      errorMessage := some msg
      filesScanned := c.filesScanned
      linesParsed := c.linesParsed
      linesMalformed := c.linesMalformed
      entriesAdded := c.entriesAdded }
  | none =>
    { j with
      status := JobStatus.finished
      endTime := some endT
      errorMessage := none
      filesScanned := c.filesScanned
      linesParsed := c.linesParsed
      linesMalformed := c.linesMalformed
      entriesAdded := c.entriesAdded }

/-- The wire form of a job status, as read from the status field of the GET
collect status response by checkCollectionStatus (main.js lines 249 to 262). -/
def statusString : JobStatus → String
  | JobStatus.idle => "idle"
  | JobStatus.running => "running"
  | JobStatus.finished => "finished"
  | JobStatus.error => "error"

/-- Modelled from the spec: the GET collect status endpoint is a pure state
accessor returning the status and counts and leaving the job untouched
(spec sections 6 and 9). -/
def statusEndpoint (j : Job) : (String × Nat × Nat × Nat × Nat) × Job :=
  ((statusString j.status, j.filesScanned, j.linesParsed, j.linesMalformed,
    j.entriesAdded), j)

/-- C3: the job status is always one of idle, running, finished, error, and
the transitions follow the state machine: accepting a start on a
non-running job enters running with all counts reset, the start time
recorded and no error message; completing a run without a fatal failure
from running ends in finished even with malformed lines counted; a fatal
failure ends in error with the recorded message; and the status endpoint
reports exactly the job status string. -/
theorem c3_state_machine :
    (∀ s : JobStatus, statusString s = "idle" ∨ statusString s = "running" ∨
      statusString s = "finished" ∨ statusString s = "error") ∧
    (∀ (j : Job) (now : Nat), j.status ≠ JobStatus.running →
      (startRun j now).2.status = JobStatus.running ∧
      (startRun j now).2.startTime = some now ∧
      (startRun j now).2.errorMessage = none ∧
      (startRun j now).2.filesScanned = 0 ∧
      (startRun j now).2.linesParsed = 0 ∧
      (startRun j now).2.linesMalformed = 0 ∧
      (startRun j now).2.entriesAdded = 0) ∧
    (∀ (j : Job) (endT : Nat) (c : RunCounts), j.status = JobStatus.running →
      (completeRun j endT c none).status = JobStatus.finished ∧
      (completeRun j endT c none).errorMessage = none ∧
      (completeRun j endT c none).linesMalformed = c.linesMalformed) ∧
    (∀ (j : Job) (endT : Nat) (c : RunCounts) (msg : String),
      j.status = JobStatus.running →
      (completeRun j endT c (some msg)).status = JobStatus.error ∧
      (completeRun j endT c (some msg)).errorMessage = some msg) ∧
    (∀ j : Job, (statusEndpoint j).1.1 = statusString j.status) := by
  refine ⟨?_, ?_, ?_, ?_, ?_⟩
  · intro s
    cases s with
    | idle => exact Or.inl rfl
    | running => exact Or.inr (Or.inl rfl)
    | finished => exact Or.inr (Or.inr (Or.inl rfl))
    | error => exact Or.inr (Or.inr (Or.inr rfl))
  · intro j now h
    unfold startRun
    rw [if_neg h]
    exact ⟨rfl, rfl, rfl, rfl, rfl, rfl, rfl⟩
  · intro j endT c _
    exact ⟨rfl, rfl, rfl⟩
  · intro j endT c msg _
    exact ⟨rfl, rfl⟩
  · intro j
    rfl

/-- C3 witness: the theorem instantiated on the initial job, a concrete
start at time 7 and a concrete completion with two malformed lines. -/
theorem c3_state_machine_witness :
    (initialJob.status ≠ JobStatus.running ∧
      (startRun initialJob 7).2.status = JobStatus.running ∧
      (startRun initialJob 7).2.startTime = some 7) ∧
    ((startRun initialJob 7).2.status = JobStatus.running ∧
      (completeRun (startRun initialJob 7).2 9 (RunCounts.mk 1 60 2 58) none).status =
        JobStatus.finished) ∧
    (completeRun (startRun initialJob 7).2 9 (RunCounts.mk 0 0 0 0)
        (some "Store unavailable")).status = JobStatus.error ∧
    (statusEndpoint initialJob).1.1 = statusString initialJob.status := by
  refine ⟨⟨by decide, ?_, ?_⟩, ⟨by decide, ?_⟩, ?_, ?_⟩
  · exact (c3_state_machine.2.1 initialJob 7 (by decide)).1
  · exact (c3_state_machine.2.1 initialJob 7 (by decide)).2.1
  · exact (c3_state_machine.2.2.1 (startRun initialJob 7).2 9
      (RunCounts.mk 1 60 2 58) (by decide)).1
  · exact (c3_state_machine.2.2.2.1 (startRun initialJob 7).2 9
      (RunCounts.mk 0 0 0 0) "Store unavailable" (by decide)).1
  · exact c3_state_machine.2.2.2.2 initialJob

/-! ## Client-side polling loop (frontend/src/main.js lines 61 to 64 and
287 to 317) -/

/-- The polling period of the client (main.js line 63). -/
def pollingIntervalMs : Nat := 2000

/-- The giving-up bound of the client (main.js line 64). -/
def pollingTimeoutMs : Nat := 300000

/-- Number of status checks the client performs before its own timeout
stops the interval. -/
def maxPolls : Nat := pollingTimeoutMs / pollingIntervalMs

/-- The statuses on which the interval callback stops polling
(main.js lines 291 to 309): finished, error and idle are terminal for the
client; any other status keeps the interval alive. -/
def terminalStatus (s : String) : Bool :=
  s = "finished" ∨ s = "error" ∨ s = "idle"

/-- Result of the client polling loop. -/
inductive PollResult where
  | stoppedOn (s : String)
  | timedOut
deriving DecidableEq, Repr

/-- The polling loop from tick `k`, with the remaining number of checks as
fuel: each tick reads the status; a terminal status stops the loop, and
exhausting the fuel is the client timeout. -/
def pollFrom (statuses : Nat → String) (k : Nat) : Nat → PollResult
  | 0 => PollResult.timedOut
  | fuel + 1 =>
    if terminalStatus (statuses k) then PollResult.stoppedOn (statuses k)
    else pollFrom statuses (k + 1) fuel

/-- The whole client polling loop: one status check every
pollingIntervalMs until the timeout of pollingTimeoutMs. -/
def pollLoop (statuses : Nat → String) : PollResult :=
  pollFrom statuses 0 maxPolls

lemma pollFrom_timedOut (statuses : Nat → String) (fuel k : Nat)
    (h : ∀ i, i < fuel → terminalStatus (statuses (k + i)) = false) :
    pollFrom statuses k fuel = PollResult.timedOut := by
  induction fuel generalizing k with
  | zero => rfl
  | succ fuel ih =>
    unfold pollFrom
    have h0 : terminalStatus (statuses k) = false := by
      have := h 0 (Nat.succ_pos fuel)
      simpa using this
    rw [h0]
    simp only [Bool.false_eq_true, if_false]
    exact ih (k + 1) (fun i hi => by
      have := h (i + 1) (Nat.succ_lt_succ hi)
      simpa [Nat.add_assoc, Nat.add_comm 1 i] using this)

lemma pollFrom_first_terminal (statuses : Nat → String) (fuel k n : Nat)
    (hn : n < fuel)
    (hbefore : ∀ i, i < n → terminalStatus (statuses (k + i)) = false)
    (hterm : terminalStatus (statuses (k + n)) = true) :
    pollFrom statuses k fuel = PollResult.stoppedOn (statuses (k + n)) := by
  induction fuel generalizing k n with
  | zero => exact absurd hn (Nat.not_lt_zero n)
  | succ fuel ih =>
    unfold pollFrom
    cases n with
    | zero =>
      have h0 : terminalStatus (statuses k) = true := by simpa using hterm
      rw [h0]
      simp
    | succ n =>
      have h0 : terminalStatus (statuses k) = false := by
        have := hbefore 0 (Nat.succ_pos n)
        simpa using this
      rw [h0]
      simp only [Bool.false_eq_true, if_false]
      have hres := ih (k + 1) n (Nat.lt_of_succ_lt_succ hn)
        (fun i hi => by
          have := hbefore (i + 1) (Nat.succ_lt_succ hi)
          simpa [Nat.add_assoc, Nat.add_comm 1 i] using this)
        (by
          have hx : k + 1 + n = k + (n + 1) := by omega
          rw [hx]
          exact hterm)
      rw [hres]
      have hx : k + 1 + n = k + (n + 1) := by omega
      rw [hx]

/-- C4: the polling contract of the client: the interval is 2000 ms and the
giving-up bound 300000 ms, so at most 150 status checks happen; the loop
stops at the first terminal status (finished, error or idle) it observes
and returns it; if no terminal status appears within the bound the loop
gives up with a timeout; and a status read is a pure accessor that leaves
the server-side job unchanged, so the run proceeds identically whether or
not any client polls. -/
theorem c4_polling_contract :
    pollingIntervalMs = 2000 ∧
    pollingTimeoutMs = 300000 ∧
    maxPolls = 150 ∧
    (∀ s : String, terminalStatus s = true ↔ (s = "finished" ∨ s = "error" ∨ s = "idle")) ∧
    (∀ (statuses : Nat → String) (n : Nat), n < maxPolls →
      (∀ i, i < n → terminalStatus (statuses i) = false) →
      terminalStatus (statuses n) = true →
      pollLoop statuses = PollResult.stoppedOn (statuses n)) ∧
    (∀ statuses : Nat → String,
      (∀ i, i < maxPolls → terminalStatus (statuses i) = false) →
      pollLoop statuses = PollResult.timedOut) ∧
    (∀ j : Job, (statusEndpoint j).2 = j) := by
  refine ⟨rfl, rfl, rfl, ?_, ?_, ?_, ?_⟩
  · intro s
    unfold terminalStatus
    exact decide_eq_true_iff
  · intro statuses n hn hbefore hterm
    unfold pollLoop
    have := pollFrom_first_terminal statuses maxPolls 0 n hn
      (fun i hi => by simpa using hbefore i hi) (by simpa using hterm)
    simpa using this
  · intro statuses h
    unfold pollLoop
    exact pollFrom_timedOut statuses maxPolls 0 (fun i hi => by simpa using h i hi)
  · intro j
    rfl

/-- C4 witness: a trace that turns finished at the fourth check stops there,
a trace that never turns terminal times out, and a status read leaves the
started job unchanged. -/
theorem c4_polling_contract_witness :
    (3 < maxPolls ∧
      (∀ i, i < 3 → terminalStatus ((fun n => if n = 3 then "finished" else "running") i) = false) ∧
      terminalStatus ((fun n => if n = 3 then "finished" else "running") 3) = true ∧
      pollLoop (fun n => if n = 3 then "finished" else "running") =
        PollResult.stoppedOn "finished") ∧
    ((∀ i, i < maxPolls → terminalStatus ((fun _ => "running") i) = false) ∧
      pollLoop (fun _ => "running") = PollResult.timedOut) ∧
    (statusEndpoint (startRun initialJob 0).2).2 = (startRun initialJob 0).2 := by
  refine ⟨⟨by decide, ?_, by decide, ?_⟩, ⟨?_, ?_⟩, ?_⟩
  · intro i hi
    interval_cases i <;> decide
  · exact c4_polling_contract.2.2.2.2.1 (fun n => if n = 3 then "finished" else "running")
      3 (by decide) (fun i hi => by interval_cases i <;> decide) (by decide)
  · intro i _
    show terminalStatus "running" = false
    decide
  · exact c4_polling_contract.2.2.2.2.2.1 (fun _ => "running")
      (fun i _ => (by decide : terminalStatus "running" = false))
  · exact c4_polling_contract.2.2.2.2.2.2 (startRun initialJob 0).2

/-! ## Query layer defaults and parameter construction
(frontend/src/main.js lines 43 to 59 and 180 to 190) -/

/-- The reactive filter, sort and pagination state of the client, with the
initial values from main.js lines 43 to 59. -/
structure FilterState where
  itemsPerPage : Nat
  currentPage : Nat
  filterIp : String
  filterCountry : String
  filterDomain : String
  filterStatusCode : Option Int
  sortKey : String
  sortDirection : String
deriving DecidableEq, Repr

/-- The initial client state: page size 15, first page, no filters, sort by
timestamp descending. -/
def initialFilterState : FilterState :=
  { itemsPerPage := 15
    currentPage := 1
    filterIp := ""
    filterCountry := ""
    filterDomain := ""
    filterStatusCode := none
    sortKey := "timestamp"
    sortDirection := "desc" }

/-- skipValue (main.js lines 80 to 82). -/
def skipValue (q : FilterState) : Nat :=
  (q.currentPage - 1) * q.itemsPerPage

/-- A query-string parameter value; null marks a parameter that fetchData
drops before sending. -/
inductive ParamValue where
  | nat (n : Nat)
  | int (i : Int)
  | str (s : String)
  | null
deriving DecidableEq, BEq, Repr

/-- The params object built by fetchData (main.js lines 180 to 189): unset
filters (empty string or null) become null. -/
def rawParams (q : FilterState) : List (String × ParamValue) :=
  [("limit", ParamValue.nat q.itemsPerPage),
   ("skip", ParamValue.nat (skipValue q)),
   ("ip_address", if q.filterIp = "" then ParamValue.null else ParamValue.str q.filterIp),
   ("country", if q.filterCountry = "" then ParamValue.null else ParamValue.str q.filterCountry),
   ("domain", if q.filterDomain = "" then ParamValue.null else ParamValue.str q.filterDomain),
   ("status_code", match q.filterStatusCode with
     | none => ParamValue.null
     | some c => ParamValue.int c),
   ("sort_by", ParamValue.str q.sortKey),
   ("sort_dir", ParamValue.str q.sortDirection)]

/-- filteredParams (main.js line 190): entries whose value is null are
omitted from the request entirely. -/
def filteredParams (q : FilterState) : List (String × ParamValue) :=
  (rawParams q).filter (fun p => !(decide (p.2 = ParamValue.null)))

/-- C5: with no user input the request carries exactly limit 15, skip 0,
sort_by timestamp and sort_dir desc, and no filter keys; in general each
filter parameter is present in the sent request exactly when it is set
(non-empty string, non-null status code), and null-valued parameters are
omitted entirely. -/
theorem c5_query_defaults :
    initialFilterState.sortKey = "timestamp" ∧
    initialFilterState.sortDirection = "desc" ∧
    initialFilterState.itemsPerPage = 15 ∧
    filteredParams initialFilterState =
      [("limit", ParamValue.nat 15), ("skip", ParamValue.nat 0),
       ("sort_by", ParamValue.str "timestamp"), ("sort_dir", ParamValue.str "desc")] ∧
    (∀ q : FilterState,
      ((∃ v, ("ip_address", v) ∈ filteredParams q) ↔ q.filterIp ≠ "") ∧
      ((∃ v, ("country", v) ∈ filteredParams q) ↔ q.filterCountry ≠ "") ∧
      ((∃ v, ("domain", v) ∈ filteredParams q) ↔ q.filterDomain ≠ "") ∧
      ((∃ v, ("status_code", v) ∈ filteredParams q) ↔ q.filterStatusCode ≠ none)) ∧
    (∀ q : FilterState, ∀ p ∈ filteredParams q, p.2 ≠ ParamValue.null) := by
  refine ⟨rfl, rfl, rfl, by decide, ?_, ?_⟩
  · intro q
    refine ⟨?_, ?_, ?_, ?_⟩
    · constructor
      · rintro ⟨v, hv⟩ hip
        simp [filteredParams, rawParams, hip] at hv
      · intro hip
        refine ⟨ParamValue.str q.filterIp, ?_⟩
        simp [filteredParams, rawParams, hip]
    · constructor
      · rintro ⟨v, hv⟩ hc
        simp [filteredParams, rawParams, hc] at hv
      · intro hc
        refine ⟨ParamValue.str q.filterCountry, ?_⟩
        simp [filteredParams, rawParams, hc]
    · constructor
      · rintro ⟨v, hv⟩ hd
        simp [filteredParams, rawParams, hd] at hv
      · intro hd
        refine ⟨ParamValue.str q.filterDomain, ?_⟩
        simp [filteredParams, rawParams, hd]
    · constructor
      · rintro ⟨v, hv⟩ hs
        simp [filteredParams, rawParams, hs] at hv
      · intro hs
        rcases Option.ne_none_iff_exists.mp hs with ⟨c, hc⟩
        refine ⟨ParamValue.int c, ?_⟩
        simp [filteredParams, rawParams, hc.symm]
  · intro q p hp
    have := List.of_mem_filter hp
    intro hnull
    rw [hnull] at this
    simp at this

/-! ## Pagination (frontend/src/main.js lines 76 to 82 and 393 to 404;
Store query skip and limit modelled from spec section 4.4) -/

/-- Ceiling division on naturals: JavaScript Math.ceil of a quotient of
non-negative integers. -/
def ceilDiv (a b : Nat) : Nat :=
  (a + b - 1) / b

/-- totalPages (main.js lines 77 to 79): ceiling of total over the page
size when the page size is positive, zero otherwise. -/
def totalPages (total limit : Nat) : Nat :=
  if 0 < limit then ceilDiv total limit else 0

/-- The skip requested for page p (main.js lines 80 to 82): pages are
1-based and skip is (page - 1) times the page size. -/
def pageSkip (p limit : Nat) : Nat :=
  (p - 1) * limit

/-- Modelled from the spec: the Store query answers a page by skipping
`skip` entries of the filtered, sorted result and taking `limit`
(spec section 4.4). -/
def pageOf (l : List LogRecord) (p limit : Nat) : List LogRecord :=
  (l.drop (pageSkip p limit)).take limit

/-- The concatenation of all pages 1 .. totalPages of a result set. -/
def allPages (l : List LogRecord) (limit : Nat) : List LogRecord :=
  ((List.range (totalPages l.length limit)).map (fun i => pageOf l (i + 1) limit)).flatten

/-- goToPage (main.js lines 393 to 398): navigation only accepts pages
between 1 and totalPages. -/
def goToPageOk (p tp : Nat) : Bool :=
  decide (1 ≤ p) && decide (p ≤ tp)

lemma ceilDiv_zero_left (b : Nat) (hb : 0 < b) : ceilDiv 0 b = 0 := by
  unfold ceilDiv
  rw [Nat.zero_add]
  exact Nat.div_eq_of_lt (Nat.sub_lt hb Nat.one_pos)

lemma ceilDiv_step (n b : Nat) (hb : 0 < b) (hn : 0 < n) :
    ceilDiv n b = ceilDiv (n - b) b + 1 := by
  unfold ceilDiv
  rcases Nat.lt_or_ge b n with hlt | hge
  · have hx : n + b - 1 = n - b + b - 1 + b := by omega
    rw [hx, Nat.add_div_right _ hb]
  · have hz : n - b = 0 := by omega
    rw [hz, Nat.zero_add]
    have h0 : (b - 1) / b = 0 := Nat.div_eq_of_lt (Nat.sub_lt hb Nat.one_pos)
    rw [h0]
    have h1 : 1 * b ≤ n + b - 1 := by omega
    have h2 : n + b - 1 < 2 * b := by omega
    exact Nat.div_eq_of_lt_le h1 h2

lemma allPages_nil (limit : Nat) : allPages [] limit = [] := by
  unfold allPages totalPages
  by_cases h : 0 < limit
  · rw [if_pos h]
    rw [List.length_nil, ceilDiv_zero_left limit h]
    rfl
  · rw [if_neg h]
    rfl

lemma pageOf_shift (l : List LogRecord) (p limit : Nat) :
    pageOf l (p + 2) limit = pageOf (l.drop limit) (p + 1) limit := by
  unfold pageOf pageSkip
  rw [List.drop_drop]
  have h1 : p + 2 - 1 = p + 1 := by omega
  have h2 : p + 1 - 1 = p := by omega
  rw [h1, h2]
  rw [show limit + p * limit = (p + 1) * limit from by ring]

lemma allPages_step (l : List LogRecord) (limit : Nat) (hb : 0 < limit)
    (hl : 0 < l.length) :
    allPages l limit = l.take limit ++ allPages (l.drop limit) limit := by
  unfold allPages
  rw [totalPages, totalPages, if_pos hb, if_pos hb, List.length_drop,
    ceilDiv_step l.length limit hb hl,
    List.range_succ_eq_map, List.map_cons, List.flatten_cons, List.map_map]
  congr 1
  · unfold pageOf pageSkip
    norm_num
  · congr 1
    apply List.map_congr_left
    intro i _
    show pageOf l (i + 1 + 1) limit = pageOf (l.drop limit) (i + 1) limit
    exact pageOf_shift l i limit

lemma allPages_eq_aux (limit : Nat) (hb : 0 < limit) :
    ∀ (n : Nat) (l : List LogRecord), l.length ≤ n → allPages l limit = l := by
  intro n
  induction n with
  | zero =>
    intro l hl
    rw [List.eq_nil_of_length_eq_zero (Nat.le_zero.mp hl)]
    exact allPages_nil limit
  | succ n ih =>
    intro l hl
    by_cases hz : l.length = 0
    · rw [List.eq_nil_of_length_eq_zero hz]
      exact allPages_nil limit
    · have hpos : 0 < l.length := Nat.pos_of_ne_zero hz
      rw [allPages_step l limit hb hpos,
        ih (l.drop limit) (by rw [List.length_drop]; omega)]
      exact List.take_append_drop limit l

/-- C6: page p requests skip (p - 1) * limit, the page count is the ceiling
of the total count over the limit, navigation accepts exactly the pages
1 .. totalPages, and for every positive limit the concatenation of the
entries of pages 1 .. totalPages is exactly the full result set, with no
gaps and no repeats. -/
theorem c6_pagination_complete :
    (∀ p limit : Nat, pageSkip p limit = (p - 1) * limit) ∧
    (∀ total limit : Nat, 0 < limit → totalPages total limit = (total + limit - 1) / limit) ∧
    (∀ p tp : Nat, goToPageOk p tp = true ↔ (1 ≤ p ∧ p ≤ tp)) ∧
    (∀ (l : List LogRecord) (limit : Nat), 0 < limit → allPages l limit = l) := by
  refine ⟨?_, ?_, ?_, ?_⟩
  · intro p limit
    rfl
  · intro total limit h
    unfold totalPages ceilDiv
    rw [if_pos h]
  · intro p tp
    unfold goToPageOk
    simp
  · intro l limit h
    exact allPages_eq_aux limit h l.length l Nat.le.refl

/-- C6 witness: three entries with page size 2 make two pages whose
concatenation is the whole list, and totalPages 3 2 is the ceiling 2. -/
theorem c6_pagination_complete_witness :
    totalPages 3 2 = (3 + 2 - 1) / 2 ∧
    (goToPageOk 2 2 = true ↔ (1 ≤ 2 ∧ 2 ≤ 2)) ∧
    allPages [LogRecord.mk "a" 0 "r1", LogRecord.mk "a" 1 "r2", LogRecord.mk "a" 2 "r3"] 2 =
      [LogRecord.mk "a" 0 "r1", LogRecord.mk "a" 1 "r2", LogRecord.mk "a" 2 "r3"] := by
  refine ⟨?_, ?_, ?_⟩
  · exact c6_pagination_complete.2.1 3 2 (by decide)
  · exact c6_pagination_complete.2.2.1 2 2
  · exact c6_pagination_complete.2.2.2
      [LogRecord.mk "a" 0 "r1", LogRecord.mk "a" 1 "r2", LogRecord.mk "a" 2 "r3"] 2
      (by decide)

/-! ## Shared-secret header (frontend/src/main.js lines 93 to 105; server
check modelled from spec section 6) -/

/-- The axios instance value: base URL and default headers
(main.js lines 101 to 104). -/
structure ApiClient where
  baseURL : String
  defaultHeaders : List (String × String)
deriving DecidableEq, Repr

/-- createApiClient (main.js lines 93 to 105): no client without a base
URL; the instance always carries the X-API-Key default header, the empty
string standing in for a missing key. -/
def createApiClient (url key : String) : Option ApiClient :=
  if url = "" then none
  else some ⟨url, [("X-API-Key", key)]⟩

/-- A request sent through the axios instance. -/
structure HttpRequest where
  path : String
  headers : List (String × String)
deriving DecidableEq, Repr

/-- Every request issued through the instance inherits the default
headers. -/
def clientRequest (c : ApiClient) (path : String) : HttpRequest :=
  ⟨path, c.defaultHeaders⟩

/-- The endpoints the client code calls, all through the one apiClient
instance (main.js lines 193, 194, 253, 284). -/
def clientApiPaths : List String :=
  ["/logs/", "/logs/summary/by-country/", "/collect-logs/", "/collect-logs/status"]

/-- Modelled from the spec: the shared-secret check (spec section 6): the
X-API-Key header is compared against the configured value; absence or
mismatch fails authentication. -/
def checkApiKey (configured : String) (headers : List (String × String)) : Bool :=
  match headers.lookup "X-API-Key" with
  | some v => decide (v = configured)
  | none => false

/-- The whole server state touched by requests. -/
structure ServerState where
  store : List LogRecord
  job : Job
deriving DecidableEq, Repr

/-- Modelled from the spec: request handling performs the shared-secret
check before any Store or Orchestrator side effect (spec section 6); an
authenticated collect request drives the Orchestrator start path. -/
def handleRequest (configured : String) (st : ServerState) (req : HttpRequest)
    (now : Nat) : Nat × ServerState :=
  if checkApiKey configured req.headers then
    if req.path = "/collect-logs/" then
      ((startRun st.job now).1.httpStatus, ⟨st.store, (startRun st.job now).2⟩)
    else
      (200, st)
  else
    (401, st)

lemma createApiClient_some (url key : String) (c : ApiClient)
    (h : createApiClient url key = some c) :
    c = ApiClient.mk url [("X-API-Key", key)] := by
  unfold createApiClient at h
  by_cases hu : url = ""
  · rw [if_pos hu] at h
    cases h
  · rw [if_neg hu] at h
    injection h with h2
    exact h2.symm

/-- C7: a client is only created with the X-API-Key header among its
defaults, every request of every endpoint issued through it carries that
header, and on the server a missing or mismatched shared secret yields a
401 authentication failure with the store and job untouched, while the
matching secret passes the check. -/
theorem c7_shared_secret_header :
    (∀ (url key : String) (c : ApiClient), createApiClient url key = some c →
      c.defaultHeaders = [("X-API-Key", key)] ∧
      ∀ p : String, ("X-API-Key", key) ∈ (clientRequest c p).headers) ∧
    (∀ (url key : String) (c : ApiClient), createApiClient url key = some c →
      ∀ p ∈ clientApiPaths, ("X-API-Key", key) ∈ (clientRequest c p).headers) ∧
    (∀ (cfg : String) (st : ServerState) (req : HttpRequest) (now : Nat),
      checkApiKey cfg req.headers = false → handleRequest cfg st req now = (401, st)) ∧
    (∀ cfg : String, checkApiKey cfg [] = false) ∧
    (∀ cfg k : String, k ≠ cfg → checkApiKey cfg [("X-API-Key", k)] = false) ∧
    (∀ cfg : String, checkApiKey cfg [("X-API-Key", cfg)] = true) := by
  refine ⟨?_, ?_, ?_, ?_, ?_, ?_⟩
  · intro url key c h
    rw [createApiClient_some url key c h]
    exact ⟨rfl, fun p => List.mem_singleton.mpr rfl⟩
  · intro url key c h p _
    rw [createApiClient_some url key c h]
    exact List.mem_singleton.mpr rfl
  · intro cfg st req now h
    unfold handleRequest
    rw [h]
    simp
  · intro cfg
    rfl
  · intro cfg k h
    unfold checkApiKey
    simp [List.lookup, h]
  · intro cfg
    unfold checkApiKey
    simp [List.lookup]

/-- C7 witness: a concrete client built with key k1 carries the header on
the collect endpoint, and a request with the wrong key is rejected with
401 and no state change. -/
theorem c7_shared_secret_header_witness :
    createApiClient "http://api" "k1" = some (ApiClient.mk "http://api" [("X-API-Key", "k1")]) ∧
    ("X-API-Key", "k1") ∈
      (clientRequest (ApiClient.mk "http://api" [("X-API-Key", "k1")]) "/collect-logs/").headers ∧
    checkApiKey "k1" [("X-API-Key", "wrong")] = false ∧
    handleRequest "k1" (ServerState.mk [] initialJob)
        (HttpRequest.mk "/collect-logs/" [("X-API-Key", "wrong")]) 0 =
      (401, ServerState.mk [] initialJob) := by
  refine ⟨by decide, ?_, ?_, ?_⟩
  · exact (c7_shared_secret_header.1 "http://api" "k1"
      (ApiClient.mk "http://api" [("X-API-Key", "k1")]) (by decide)).2 "/collect-logs/"
  · exact c7_shared_secret_header.2.2.2.2.1 "k1" "wrong" (by decide)
  · exact c7_shared_secret_header.2.2.1 "k1" (ServerState.mk [] initialJob)
      (HttpRequest.mk "/collect-logs/" [("X-API-Key", "wrong")]) 0 (by decide)

/-! ## Geo resolution fallback (resolver modelled from spec section 4.3;
client rendering from frontend/src/main.js lines 911 to 918) -/

/-- An IPv4 address as four octets. -/
structure IPv4 where
  a : Nat
  b : Nat
  c : Nat
  d : Nat
deriving DecidableEq, BEq, Repr

/-- Modelled from the spec: the loopback, private and reserved ranges the
resolver never looks up (spec section 4.3). -/
def isReservedAddr (ip : IPv4) : Bool :=
  decide (ip.a = 127) || decide (ip.a = 10) ||
  (decide (ip.a = 172) && decide (16 ≤ ip.b) && decide (ip.b ≤ 31)) ||
  (decide (ip.a = 192) && decide (ip.b = 168)) ||
  (decide (ip.a = 169) && decide (ip.b = 254)) ||
  decide (ip.a = 0)

/-- Modelled from the spec: resolve(address): loopback, private and
reserved addresses and any lookup miss resolve to the sentinel Unknown
rather than failing the run (spec section 4.3); the country-level lookup
dataset is abstracted as an association list. -/
def resolveCountry (db : List (IPv4 × String)) (ip : IPv4) : String :=
  if isReservedAddr ip then "Unknown"
  else
    match db.lookup ip with
    | some cc => cc
    | none => "Unknown"

/-- The country cell of the client table (main.js template lines 911 to
918): a flag is rendered only for a non-empty country different from
Unknown; otherwise the fallback symbol is shown. -/
def rendersFlag (country : Option String) : Bool :=
  match country with
  | some cc => !(decide (cc = "")) && !(decide (cc = "Unknown"))
  | none => false

/-- C8: geo resolution is total and never errors: every reserved or private
address resolves to Unknown, every address absent from the dataset resolves
to Unknown, and in every case the result is either Unknown or a value from
the dataset; the sample reserved addresses are classified as such, and the
client renders the fallback symbol rather than a flag for Unknown. -/
theorem c8_geo_unknown_fallback :
    (∀ (db : List (IPv4 × String)) (ip : IPv4), isReservedAddr ip = true →
      resolveCountry db ip = "Unknown") ∧
    (∀ (db : List (IPv4 × String)) (ip : IPv4), db.lookup ip = none →
      resolveCountry db ip = "Unknown") ∧
    (∀ (db : List (IPv4 × String)) (ip : IPv4),
      resolveCountry db ip = "Unknown" ∨
        ∃ cc, db.lookup ip = some cc ∧ resolveCountry db ip = cc) ∧
    (isReservedAddr (IPv4.mk 10 0 0 1) = true ∧
      isReservedAddr (IPv4.mk 127 0 0 1) = true ∧
      isReservedAddr (IPv4.mk 192 168 1 1) = true) ∧
    (rendersFlag (some "Unknown") = false ∧ rendersFlag none = false ∧
      rendersFlag (some "DE") = true) := by
  refine ⟨?_, ?_, ?_, by decide, by decide⟩
  · intro db ip h
    unfold resolveCountry
    rw [if_pos h]
  · intro db ip h
    unfold resolveCountry
    by_cases hr : isReservedAddr ip = true
    · rw [if_pos hr]
    · rw [if_neg hr, h]
  · intro db ip
    by_cases hr : isReservedAddr ip = true
    · left
      unfold resolveCountry
      rw [if_pos hr]
    · cases hl : db.lookup ip with
      | none =>
        left
        unfold resolveCountry
        rw [if_neg hr, hl]
      | some cc =>
        right
        refine ⟨cc, rfl, ?_⟩
        unfold resolveCountry
        rw [if_neg hr, hl]

/-- C8 witness: resolving the private address 10.0.0.1 against a concrete
dataset yields Unknown, and so does a lookup miss. -/
theorem c8_geo_unknown_fallback_witness :
    isReservedAddr (IPv4.mk 10 0 0 1) = true ∧
    resolveCountry [(IPv4.mk 1 2 3 4, "DE")] (IPv4.mk 10 0 0 1) = "Unknown" ∧
    List.lookup (IPv4.mk 8 8 8 8) [(IPv4.mk 1 2 3 4, "DE")] = none ∧
    resolveCountry [(IPv4.mk 1 2 3 4, "DE")] (IPv4.mk 8 8 8 8) = "Unknown" := by
  refine ⟨by decide, ?_, by decide, ?_⟩
  · exact c8_geo_unknown_fallback.1 [(IPv4.mk 1 2 3 4, "DE")] (IPv4.mk 10 0 0 1) (by decide)
  · exact c8_geo_unknown_fallback.2.1 [(IPv4.mk 1 2 3 4, "DE")] (IPv4.mk 8 8 8 8) (by decide)

/-! ## Startup configuration resolution (frontend/src/main.js lines 108 to
152 and 491 to 518) -/

/-- A JSON field of config.json as seen by the loader: a string value, an
absent field, or a value of some other type. -/
inductive JsonField where
  | jstr (s : String)
  | jabsent
  | jother
deriving DecidableEq, Repr

/-- The outcome of fetching /config.json: a failed or non-JSON response,
or a parsed object with its apiUrl and apiKey fields. -/
inductive ConfigFetch where
  | failed
  | ok (apiUrl : JsonField) (apiKey : JsonField)
deriving DecidableEq, Repr

/-- The configuration state after startup: the created client, if any, and
the configuration error, if any. -/
structure StartupOutcome where
  client : Option ApiClient
  cfgError : Option String
deriving DecidableEq, Repr

/-- loadConfigFromJson (main.js lines 108 to 152): a failed fetch or a
non-string or empty apiUrl sets a configuration error and no client; a
non-string apiKey degrades to the empty key with a warning; otherwise the
client is created from the JSON values. -/
def loadConfigFromJson : ConfigFetch → StartupOutcome
  | ConfigFetch.failed =>
    ⟨none, some "Error loading backend configuration from /config.json."⟩
  | ConfigFetch.ok apiUrlField apiKeyField =>
    match apiUrlField with
    | JsonField.jstr u =>
      if u = "" then
        ⟨none, some "apiUrl not found as a valid string in config.json."⟩
      else
        match createApiClient u (match apiKeyField with
          | JsonField.jstr s => s
          | _ => "") with
        | some c => ⟨some c, none⟩
        | none => ⟨none, some "Error creating API client after loading JSON config."⟩
    | _ => ⟨none, some "apiUrl not found as a valid string in config.json."⟩

/-- onMounted (main.js lines 491 to 518): the build-time environment values
are used when VITE_API_BASE_URL is a truthy string and VITE_API_KEY is a
string (possibly empty); otherwise the runtime /config.json is loaded. -/
def resolveStartupConfig (envUrl envKey : Option String) (json : ConfigFetch) :
    StartupOutcome :=
  match envUrl, envKey with
  | some u, some k =>
    if u = "" then loadConfigFromJson json
    else
      match createApiClient u k with
      | some c => ⟨some c, none⟩
      | none => ⟨none, some "Error creating API client with .env configuration."⟩
  | _, _ => loadConfigFromJson json

/-- The guard in front of the initial fetchData call (main.js lines 509 to
517): data is requested only when no configuration error is set and a
client exists. -/
def attemptsInitialFetch (o : StartupOutcome) : Bool :=
  decide (o.cfgError = none) && !(decide (o.client = none))

lemma loadConfigFromJson_closed (json : ConfigFetch) :
    (loadConfigFromJson json).client = none ↔ (loadConfigFromJson json).cfgError ≠ none := by
  cases json with
  | failed => simp [loadConfigFromJson]
  | ok apiUrlField apiKeyField =>
    cases apiUrlField with
    | jstr u =>
      by_cases hu : u = ""
      · simp [loadConfigFromJson, hu]
      · simp only [loadConfigFromJson, createApiClient]
        rw [if_neg hu, if_neg hu]
        simp
    | jabsent => simp [loadConfigFromJson]
    | jother => simp [loadConfigFromJson]

/-- C9: configuration resolution is fail-closed with the env-first
precedence: when the env URL is a non-empty string and the env key is a
string the outcome ignores config.json entirely; when the env pair is
unavailable the outcome is that of loading config.json; in every case a
client exists exactly when no configuration error is set, a created client
carries a non-empty base URL, and the initial data request happens exactly
when a client was created and no error is set — so when neither source
yields a valid non-empty apiUrl, no client is created, no data request is
issued, and an error is reported. -/
theorem c9_config_fail_closed :
    (∀ (u k : String) (j j2 : ConfigFetch), u ≠ "" →
      resolveStartupConfig (some u) (some k) j = resolveStartupConfig (some u) (some k) j2) ∧
    (∀ (k : Option String) (j : ConfigFetch),
      resolveStartupConfig none k j = loadConfigFromJson j) ∧
    (∀ (u : String) (j : ConfigFetch),
      resolveStartupConfig (some u) none j = loadConfigFromJson j) ∧
    (∀ (envUrl envKey : Option String) (j : ConfigFetch),
      (resolveStartupConfig envUrl envKey j).client = none ↔
        (resolveStartupConfig envUrl envKey j).cfgError ≠ none) ∧
    (∀ (envUrl envKey : Option String) (j : ConfigFetch) (c : ApiClient),
      (resolveStartupConfig envUrl envKey j).client = some c → c.baseURL ≠ "") ∧
    (∀ (envUrl envKey : Option String) (j : ConfigFetch),
      attemptsInitialFetch (resolveStartupConfig envUrl envKey j) = true ↔
        ((resolveStartupConfig envUrl envKey j).cfgError = none ∧
          (resolveStartupConfig envUrl envKey j).client ≠ none)) := by
  have hclosed : ∀ (envUrl envKey : Option String) (j : ConfigFetch),
      (resolveStartupConfig envUrl envKey j).client = none ↔
        (resolveStartupConfig envUrl envKey j).cfgError ≠ none := by
    intro envUrl envKey j
    cases envUrl with
    | none => exact loadConfigFromJson_closed j
    | some u =>
      cases envKey with
      | none => exact loadConfigFromJson_closed j
      | some k =>
        by_cases hu : u = ""
        · simp only [resolveStartupConfig]
          rw [if_pos hu]
          exact loadConfigFromJson_closed j
        · simp only [resolveStartupConfig, createApiClient]
          rw [if_neg hu, if_neg hu]
          simp
  have hurl : ∀ (envUrl envKey : Option String) (j : ConfigFetch) (c : ApiClient),
      (resolveStartupConfig envUrl envKey j).client = some c → c.baseURL ≠ "" := by
    have hjson : ∀ (j : ConfigFetch) (c : ApiClient),
        (loadConfigFromJson j).client = some c → c.baseURL ≠ "" := by
      intro j c h
      cases j with
      | failed => cases h
      | ok apiUrlField apiKeyField =>
        cases apiUrlField with
        | jstr u =>
          by_cases hu : u = ""
          · simp only [loadConfigFromJson] at h
            rw [if_pos hu] at h
            cases h
          · simp only [loadConfigFromJson] at h
            rw [if_neg hu] at h
            revert h
            cases hcr : createApiClient u (match apiKeyField with
              | JsonField.jstr s => s
              | _ => "") with
            | none => intro h; cases h
            | some c2 =>
              intro h
              have hc : c2 = c := by
                simpa using h
              rw [createApiClient_some u _ c2 hcr] at hc
              rw [← hc]
              exact hu
        | jabsent => cases h
        | jother => cases h
    intro envUrl envKey j c h
    cases envUrl with
    | none => exact hjson j c h
    | some u =>
      cases envKey with
      | none => exact hjson j c h
      | some k =>
        by_cases hu : u = ""
        · simp only [resolveStartupConfig] at h
          rw [if_pos hu] at h
          exact hjson j c h
        · simp only [resolveStartupConfig] at h
          rw [if_neg hu] at h
          revert h
          cases hcr : createApiClient u k with
          | none => intro h; cases h
          | some c2 =>
            intro h
            have hc : c2 = c := by
              simpa using h
            rw [createApiClient_some u k c2 hcr] at hc
            rw [← hc]
            exact hu
  refine ⟨?_, ?_, ?_, hclosed, hurl, ?_⟩
  · intro u k j j2 hu
    simp only [resolveStartupConfig]
    rw [if_neg hu, if_neg hu]
  · intro k j
    cases k <;> rfl
  · intro u j
    rfl
  · intro envUrl envKey j
    unfold attemptsInitialFetch
    constructor
    · intro h
      rcases Bool.and_eq_true_iff.mp h with ⟨h1, h2⟩
      refine ⟨of_decide_eq_true h1, ?_⟩
      intro hn
      rw [hn] at h2
      simp at h2
    · intro h
      rcases h with ⟨h1, h2⟩
      rw [Bool.and_eq_true_iff]
      constructor
      · exact decide_eq_true h1
      · simpa using h2

/-- C9 witness: valid env values produce a client and ignore a failed
config.json; with no env values and a failed fetch there is no client, a
configuration error, and no initial data request. -/
theorem c9_config_fail_closed_witness :
    ("http://api" ≠ "" ∧
      resolveStartupConfig (some "http://api") (some "") ConfigFetch.failed =
        resolveStartupConfig (some "http://api") (some "")
          (ConfigFetch.ok (JsonField.jstr "http://other") JsonField.jabsent)) ∧
    ((resolveStartupConfig none none ConfigFetch.failed).client = some
        (ApiClient.mk "x" []) → "x" ≠ "") ∧
    ((resolveStartupConfig none none ConfigFetch.failed).client = none ↔
      (resolveStartupConfig none none ConfigFetch.failed).cfgError ≠ none) ∧
    attemptsInitialFetch (resolveStartupConfig none none ConfigFetch.failed) = false := by
  refine ⟨⟨by decide, ?_⟩, ?_, ?_, by decide⟩
  · exact c9_config_fail_closed.1 "http://api" "" ConfigFetch.failed
      (ConfigFetch.ok (JsonField.jstr "http://other") JsonField.jabsent) (by decide)
  · intro h
    exact c9_config_fail_closed.2.2.2.2.1 none none ConfigFetch.failed
      (ApiClient.mk "x" []) h
  · exact c9_config_fail_closed.2.2.2.1 none none ConfigFetch.failed

/-! ## Timestamp formatting (frontend/src/main.js lines 438 to 461) -/

/-- The toLocaleString option object built by formatTimestamp
(main.js lines 446 to 455). -/
structure DateTimeFormatOptions where
  year : String
  month : String
  day : String
  hour : String
  minute : String
  second : String
  hour12 : Bool
  timeZone : String
deriving DecidableEq, Repr

/-- The concrete options used by formatTimestamp: two-digit fields, a
24-hour clock and the Europe/Berlin display zone. -/
def berlinFormatOptions : DateTimeFormatOptions :=
  { year := "numeric"
    month := "2-digit"
    day := "2-digit"
    hour := "2-digit"
    minute := "2-digit"
    second := "2-digit"
    hour12 := false
    timeZone := "Europe/Berlin" }

/-- JavaScript endsWith with the single character Z. -/
def endsWithZ (s : String) : Bool :=
  match s.toList.getLast? with
  | some c => decide (c = 'Z')
  | none => false

/-- The suffix normalisation of formatTimestamp (main.js line 441): a
missing Z suffix is appended so the backend timestamp is read as a UTC
instant. -/
def normalizeUtcSuffix (s : String) : String :=
  if endsWithZ s then s else s ++ "Z"

/-- formatTimestamp (main.js lines 438 to 461) with the host date engine
abstracted: parseDate stands for new Date plus the getTime NaN check, and
render stands for toLocaleString with the de-DE locale.  A falsy input
yields N/A; an unparsable input is returned unchanged by the catch branch;
otherwise the parsed instant is rendered with the Berlin options. -/
def formatTimestamp (render : Nat → DateTimeFormatOptions → String)
    (parseDate : String → Option Nat) (ts : Option String) : String :=
  match ts with
  | none => "N/A"
  | some s =>
    if s = "" then "N/A"
    else
      match parseDate (normalizeUtcSuffix s) with
      | none => s
      | some d => render d berlinFormatOptions

/-- C10: formatTimestamp is total for every date engine: a missing or empty
input yields N/A; the string handed to the date engine is the input with a
Z suffix appended exactly when it was absent; an input the engine cannot
parse is returned unchanged rather than throwing; a parsable input is
rendered with the Europe/Berlin options; and the options record carries the
Europe/Berlin display zone. -/
theorem c10_format_timestamp_total :
    (∀ (render : Nat → DateTimeFormatOptions → String) (parseDate : String → Option Nat),
      formatTimestamp render parseDate none = "N/A" ∧
      formatTimestamp render parseDate (some "") = "N/A") ∧
    (∀ s : String, endsWithZ s = false → normalizeUtcSuffix s = s ++ "Z") ∧
    (∀ s : String, endsWithZ s = true → normalizeUtcSuffix s = s) ∧
    (∀ s : String, endsWithZ (normalizeUtcSuffix s) = true) ∧
    (∀ (render : Nat → DateTimeFormatOptions → String) (parseDate : String → Option Nat)
        (s : String), s ≠ "" → parseDate (normalizeUtcSuffix s) = none →
      formatTimestamp render parseDate (some s) = s) ∧
    (∀ (render : Nat → DateTimeFormatOptions → String) (parseDate : String → Option Nat)
        (s : String) (d : Nat), s ≠ "" → parseDate (normalizeUtcSuffix s) = some d →
      formatTimestamp render parseDate (some s) = render d berlinFormatOptions) ∧
    berlinFormatOptions.timeZone = "Europe/Berlin" := by
  refine ⟨?_, ?_, ?_, ?_, ?_, ?_, rfl⟩
  · intro render parseDate
    exact ⟨rfl, rfl⟩
  · intro s h
    unfold normalizeUtcSuffix
    rw [h]
    simp
  · intro s h
    unfold normalizeUtcSuffix
    rw [h]
    simp
  · intro s
    unfold normalizeUtcSuffix
    by_cases h : endsWithZ s = true
    · rw [if_pos h]
      exact h
    · rw [if_neg h]
      unfold endsWithZ
      cases s with
      | mk data =>
        have hl : (String.mk data ++ String.mk ['Z']).toList = data ++ ['Z'] := rfl
        show (match (String.mk data ++ "Z").toList.getLast? with
          | some c => decide (c = 'Z')
          | none => false) = true
        rw [show (String.mk data ++ "Z") = String.mk data ++ String.mk ['Z'] from rfl, hl,
          List.getLast?_concat]
        simp
  · intro render parseDate s hs hp
    simp only [formatTimestamp]
    rw [if_neg hs, hp]
  · intro render parseDate s d hs hp
    simp only [formatTimestamp]
    rw [if_neg hs, hp]

/-- C10 witness: the theorem applied to a concrete date engine, an
unparsable literal and a parsable timestamp without a Z suffix. -/
theorem c10_format_timestamp_total_witness :
    formatTimestamp (fun _ _ => "01.01.2024, 13:00:00")
        (fun s => if s = "2024-01-01T12:00:00Z" then some 1704110400 else none) none = "N/A" ∧
    (endsWithZ "2024-01-01T12:00:00" = false ∧
      normalizeUtcSuffix "2024-01-01T12:00:00" = "2024-01-01T12:00:00" ++ "Z") ∧
    ("not-a-date" ≠ "" ∧
      formatTimestamp (fun _ _ => "01.01.2024, 13:00:00")
        (fun s => if s = "2024-01-01T12:00:00Z" then some 1704110400 else none)
        (some "not-a-date") = "not-a-date") ∧
    ("2024-01-01T12:00:00" ≠ "" ∧
      formatTimestamp (fun _ _ => "01.01.2024, 13:00:00")
        (fun s => if s = "2024-01-01T12:00:00Z" then some 1704110400 else none)
        (some "2024-01-01T12:00:00") = "01.01.2024, 13:00:00") := by
  refine ⟨?_, ⟨by decide, ?_⟩, ⟨by decide, ?_⟩, ⟨by decide, ?_⟩⟩
  · exact (c10_format_timestamp_total.1 (fun _ _ => "01.01.2024, 13:00:00")
      (fun s => if s = "2024-01-01T12:00:00Z" then some 1704110400 else none)).1
  · exact c10_format_timestamp_total.2.1 "2024-01-01T12:00:00" (by decide)
  · exact c10_format_timestamp_total.2.2.2.2.1 (fun _ _ => "01.01.2024, 13:00:00")
      (fun s => if s = "2024-01-01T12:00:00Z" then some 1704110400 else none)
      "not-a-date" (by decide) (by decide)
  · exact c10_format_timestamp_total.2.2.2.2.2.1 (fun _ _ => "01.01.2024, 13:00:00")
      (fun s => if s = "2024-01-01T12:00:00Z" then some 1704110400 else none)
      "2024-01-01T12:00:00" 1704110400 (by decide) (by decide)

end SAD
